import Mathlib

/-!
Verification of the dark-zone vessel prediction pipeline.

Each section embeds one Python component of the repository as Lean
definitions (shallow embedding: exact rational arithmetic where the code is
pure float arithmetic, real numbers where the code uses transcendental
functions, `Except` for code paths that can raise) and proves the spec's
claims about it.
-/

/- ## TrajectoryNormalizerV3 (src/ml/features/normalizer_v3.py)

Targets are 2-vectors (lat, lon).  `transform_y` maps a target to a
normalized velocity relative to the sequence's last position; floating-point
arithmetic is modelled exactly over ℚ (the float32 cast at the end of
`transform_y` is not modelled; it only rounds the value). -/

/-- A (lat, lon) pair, the sequence's per-step position record restricted to
the two coordinates `transform_y` reads (`X[:, -1, :2]`). -/
structure LatLon where
  lat : ℚ
  lon : ℚ
  deriving DecidableEq, Repr

/-- `X[:, -1, :2]`: the last position of a sequence.  Python indexing of an
empty array raises; the default is never reached for nonempty sequences. -/
def lastPosition (seq : List LatLon) : LatLon :=
  seq.getLastD ⟨0, 0⟩

/-- `TrajectoryNormalizerV3.transform_y` for one sample:
`gap_safe = max(gap_hours, 0.1)`, `velocity = (y - last) / gap_safe`,
`velocity_norm = velocity / velocity_scale`. -/
def transform_y (velocityScale : ℚ) (seq : List LatLon) (y : LatLon)
    (gapHours : ℚ) : LatLon :=
  let last := lastPosition seq
  let gapSafe := max gapHours (1/10)
  ⟨((y.lat - last.lat) / gapSafe) / velocityScale,
   ((y.lon - last.lon) / gapSafe) / velocityScale⟩

/-- `TrajectoryNormalizerV3.inverse_transform_y` for one sample:
`velocity = velocity_norm * velocity_scale`,
`displacement = velocity * gap_hours`, result `reference + displacement`. -/
def inverse_transform_y (velocityScale : ℚ) (velocityNorm : LatLon)
    (reference : LatLon) (gapHours : ℚ) : LatLon :=
  ⟨reference.lat + velocityNorm.lat * velocityScale * gapHours,
   reference.lon + velocityNorm.lon * velocityScale * gapHours⟩

/-- Round-trip error on the latitude axis, for the counterexample. -/
def roundTripLatError (velocityScale : ℚ) (seq : List LatLon) (y : LatLon)
    (gapHours : ℚ) : ℚ :=
  |(inverse_transform_y velocityScale
      (transform_y velocityScale seq y gapHours)
      (lastPosition seq) gapHours).lat - y.lat|

/-- C1, claim as stated, fails: with the default `velocity_scale = 0.5`,
sequence ending at (0,0), target (1,0) and gap `g = 0.05 > 0`, the
round-trip returns latitude 0.5, an error of 0.5 degrees, far above the
1e-4 tolerance.  `transform_y` divides by `max(g, 0.1) = 0.1` while
`inverse_transform_y` multiplies by the raw `g = 0.05`. -/
theorem C1_counterexample :
    roundTripLatError (1/2) [⟨0, 0⟩] ⟨1, 0⟩ (1/20) = 1/2 ∧
    ¬ (roundTripLatError (1/2) [⟨0, 0⟩] ⟨1, 0⟩ (1/20) ≤ 1/10000) := by
  have h : roundTripLatError (1/2) [⟨0, 0⟩] ⟨1, 0⟩ (1/20) = 1/2 := by
    simp only [roundTripLatError, inverse_transform_y, transform_y,
      lastPosition, List.getLastD]
    norm_num [max_def]
  refine ⟨h, ?_⟩
  rw [h]
  norm_num

/-- C1 (amended): for every sequence, target and gap duration `g ≥ 0.1`
(so that the clamp `max(g, 0.1)` in `transform_y` is the identity) and any
positive `velocity_scale`, `inverse_transform_y` after `transform_y` with
the sequence's last position as reference reconstructs the target exactly
(hence within 1e-4 per axis). -/
theorem C1_roundtrip_exact (velocityScale : ℚ) (seq : List LatLon)
    (y : LatLon) (g : ℚ) (hvs : 0 < velocityScale) (hg : 1/10 ≤ g) :
    inverse_transform_y velocityScale (transform_y velocityScale seq y g)
      (lastPosition seq) g = y := by
  have hmax : max g (1/10) = g := max_eq_left hg
  have hg0 : g ≠ 0 := by positivity
  have hvs0 : velocityScale ≠ 0 := ne_of_gt hvs
  simp only [inverse_transform_y, transform_y, hmax]
  cases y with
  | mk ylat ylon =>
    simp only [LatLon.mk.injEq]
    constructor <;> (field_simp; ring)

/-- Witness for C1_roundtrip_exact at `velocity_scale = 1/2`,
`seq = [(3, 4)]`, target `(5, 6)`, `g = 2`. -/
theorem C1_roundtrip_exact_witness :
    (0 : ℚ) < 1/2 ∧ (1/10 : ℚ) ≤ 2 ∧
    inverse_transform_y (1/2) (transform_y (1/2) [⟨3, 4⟩] ⟨5, 6⟩ 2)
      (lastPosition [⟨3, 4⟩]) 2 = ⟨5, 6⟩ :=
  ⟨by norm_num, by norm_num,
    C1_roundtrip_exact (1/2) [⟨3, 4⟩] ⟨5, 6⟩ 2 (by norm_num) (by norm_num)⟩

/- ## AISGapDetector (src/src_ml/data/detect_gaps.py)

Positions are Python dicts.  The fields relevant to `detect_gaps_in_track`
are `lat`, `lon` and `timestamp`; a dict may lack the `timestamp` key
(modelled as `none`), or hold `None`, a number, or a string.  String-to-
datetime parsing (`datetime.fromisoformat` / `strptime`) is abstracted: a
string timestamp carries the time `_parse_timestamp` would return for it
(`none` when unparseable); numeric timestamps parse to themselves in
seconds (`datetime.fromtimestamp`; the out-of-range failure of
`fromtimestamp` is not modelled).  Raising code paths return
`Except.error`. -/

/-- A Python value that can sit in a dict's `timestamp` slot. -/
inductive TSVal where
  | pynone : TSVal
  | num : ℚ → TSVal
  | strv : String → Option ℚ → TSVal
  deriving DecidableEq, Repr

/-- A position dict as consumed by `detect_gaps_in_track`.  `ts = none`
models a dict without the `timestamp` key. -/
structure GPos where
  lat : Option ℚ
  lon : Option ℚ
  ts : Option TSVal
  deriving DecidableEq, Repr

/-- `x.get('timestamp', 0)`: the sort key of a position. -/
def gposSortKey (p : GPos) : TSVal :=
  p.ts.getD (.num 0)

/-- Python `<` on two timestamp-slot values: numbers and strings compare
within their own type; any other combination (including `None` with
anything, `None` included) raises `TypeError`. -/
def pyLtTSVal : TSVal → TSVal → Except String Bool
  | .num a, .num b => .ok (decide (a < b))
  | .strv a _, .strv b _ => .ok (decide (a < b))
  | _, _ => .error "TypeError: unorderable types"

/-- Insert into a sorted list using a fallible `<`, keeping insertion
stable (insert strictly before the first greater element), as Python's
stable sort does.  The comparison that raises aborts the sort. -/
def insertByE (lt : α → α → Except String Bool) (a : α) :
    List α → Except String (List α)
  | [] => .ok [a]
  | b :: t => do
    let isLt ← lt a b
    if isLt then
      return a :: b :: t
    else
      let t2 ← insertByE lt a t
      return b :: t2

/-- Sort with a fallible comparison.  Agrees with Python's `sorted` (also a
stable sort) whenever every needed comparison succeeds. -/
def sortByE (lt : α → α → Except String Bool) :
    List α → Except String (List α)
  | [] => .ok []
  | a :: t => do
    let t2 ← sortByE lt t
    insertByE lt a t2

/-- `AISGapDetector._parse_timestamp`: `None` parses to `None`; numbers to
the corresponding time; strings to their abstracted parse result. -/
def parseTimestamp : TSVal → Option ℚ
  | .pynone => none
  | .num q => some q
  | .strv _ parsed => parsed

/-- `positions[i]['timestamp']`: direct dict indexing raises `KeyError`
when the key is absent. -/
def getTimestampKey (p : GPos) : Except String TSVal :=
  match p.ts with
  | none => .error "KeyError: timestamp"
  | some v => .ok v

/-- A gap event, with times kept as rational seconds (the Python code
stores `isoformat()` strings of the same instants). -/
structure GapEvent where
  vesselId : String
  lastSeen : GPos
  nextSeen : GPos
  gapStartTime : ℚ
  gapEndTime : ℚ
  gapDurationHours : ℚ
  lastPositionLat : Option ℚ
  lastPositionLon : Option ℚ
  nextPositionLat : Option ℚ
  nextPositionLon : Option ℚ
  pointsBeforeGap : ℕ
  deriving DecidableEq, Repr

/-- The loop body of `detect_gaps_in_track` over consecutive pairs of the
sorted list, carrying the index `i` of the earlier point. -/
def detectGapsLoop (thresholdHours : ℚ) (minPointsBefore : ℕ)
    (vesselId : String) (i : ℕ) :
    List GPos → Except String (List GapEvent)
  | p :: q :: rest => do
    let tsP ← getTimestampKey p
    let tsQ ← getTimestampKey q
    let tail ← detectGapsLoop thresholdHours minPointsBefore vesselId
      (i + 1) (q :: rest)
    match parseTimestamp tsP, parseTimestamp tsQ with
    | some currentTime, some nextTime =>
      let gapDuration := (nextTime - currentTime) / 3600
      if thresholdHours ≤ gapDuration ∧ minPointsBefore ≤ i then
        return { vesselId := vesselId, lastSeen := p, nextSeen := q,
                 gapStartTime := currentTime, gapEndTime := nextTime,
                 gapDurationHours := gapDuration,
                 lastPositionLat := p.lat, lastPositionLon := p.lon,
                 nextPositionLat := q.lat, nextPositionLon := q.lon,
                 pointsBeforeGap := i + 1 } :: tail
      else
        return tail
    | _, _ => return tail
  | _ => .ok []

/-- `AISGapDetector.detect_gaps_in_track(vessel_id, positions,
min_points_before)` with the detector's `gap_threshold_hours` first and
`min_points_before` (whose Python default is 5) second: fewer than 2
positions yield `[]` before anything else; otherwise sort by
`x.get('timestamp', 0)` and scan consecutive pairs. -/
def detect_gaps_in_track (thresholdHours : ℚ) (minPointsBefore : ℕ)
    (vesselId : String) (positions : List GPos) :
    Except String (List GapEvent) :=
  if positions.length < 2 then
    .ok []
  else do
    let sorted ← sortByE
      (fun a b => pyLtTSVal (gposSortKey a) (gposSortKey b)) positions
    detectGapsLoop thresholdHours minPointsBefore vesselId 0 sorted

/-- The three positions of the C2 scenario: t = 0h, 5h, 12h as unix
seconds. -/
def c2Positions : List GPos :=
  [⟨some 10, some 20, some (.num 0)⟩,
   ⟨some 11, some 21, some (.num 18000)⟩,
   ⟨some 12, some 22, some (.num 43200)⟩]

/-- C2, claim as stated, fails: with threshold 6h and the code's default
`min_points_before = 5`, the three-position track t = 0h, 5h, 12h yields
NO gap event at all — the 5h→12h pair has earlier-point index 1 < 5, so
the `i >= min_points_before` check rejects it. -/
theorem C2_counterexample :
    detect_gaps_in_track 6 5 "vessel-1" c2Positions = .ok [] := by
  norm_num [detect_gaps_in_track, c2Positions, sortByE, insertByE,
    detectGapsLoop, gposSortKey, pyLtTSVal, getTimestampKey, parseTimestamp,
    bind, Except.bind, pure, Except.pure]


/-- C2 (amended): the scenario holds once `min_points_before` does not
reject the pair, e.g. `min_points_before = 1`: exactly one gap event,
anchored at the 5h→12h pair, with `gap_duration_hours = 7` and no event
for the 0h→5h pair (its duration 5h is below the 6h threshold). -/
theorem C2_one_gap_with_min_points_one :
    detect_gaps_in_track 6 1 "vessel-1" c2Positions =
      .ok [{ vesselId := "vessel-1",
             lastSeen := ⟨some 11, some 21, some (.num 18000)⟩,
             nextSeen := ⟨some 12, some 22, some (.num 43200)⟩,
             gapStartTime := 18000, gapEndTime := 43200,
             gapDurationHours := 7,
             lastPositionLat := some 11, lastPositionLon := some 21,
             nextPositionLat := some 12, nextPositionLon := some 22,
             pointsBeforeGap := 2 }] := by
  norm_num [detect_gaps_in_track, c2Positions, sortByE, insertByE,
    detectGapsLoop, gposSortKey, pyLtTSVal, getTimestampKey, parseTimestamp,
    bind, Except.bind, pure, Except.pure]


/-- C3: `detect_gaps_in_track` raises on a position whose dict lacks the
`timestamp` key.  The sort survives (`x.get('timestamp', 0)` supplies a
default key) but line 51's direct `positions[i]['timestamp']` indexing
then raises `KeyError` instead of excluding the sample. -/
theorem C3_keyerror_on_missing_timestamp :
    detect_gaps_in_track 6 5 "vessel-1"
      [⟨some 1, some 2, none⟩, ⟨some 3, some 4, some (.num 18000)⟩] =
      .error "KeyError: timestamp" := by
  norm_num [detect_gaps_in_track, sortByE, insertByE,
    detectGapsLoop, gposSortKey, pyLtTSVal, getTimestampKey, parseTimestamp,
    bind, Except.bind, pure, Except.pure]


/- ## DeadReckoningBaseline (src/ml/models/baseline.py)

Float arithmetic is modelled over ℝ; `math.sin`, `math.cos`, `math.asin`,
`math.atan2` become the Mathlib real functions. -/

/-- `math.radians`. -/
noncomputable def radians (x : ℝ) : ℝ := x * Real.pi / 180

/-- `math.degrees`. -/
noncomputable def degrees (x : ℝ) : ℝ := x * 180 / Real.pi

/-- `math.atan2(y, x)` with the C/Python quadrant conventions (signed
zero, which ℝ lacks, is not modelled; `atan2(0, 0) = 0`). -/
noncomputable def pyAtan2 (y x : ℝ) : ℝ :=
  if 0 < x then Real.arctan (y / x)
  else if x < 0 ∧ 0 ≤ y then Real.arctan (y / x) + Real.pi
  else if x < 0 ∧ y < 0 then Real.arctan (y / x) - Real.pi
  else if 0 < y then Real.pi / 2
  else if y < 0 then -(Real.pi / 2)
  else 0

theorem pyAtan2_of_pos (y x : ℝ) (hx : 0 < x) :
    pyAtan2 y x = Real.arctan (y / x) := if_pos hx

/-- The dict returned by `DeadReckoningBaseline.predict`. -/
structure DRResult where
  predictedLat : ℝ
  predictedLon : ℝ
  uncertaintyNm : ℝ
  uncertaintyLatDeg : ℝ
  uncertaintyLonDeg : ℝ
  distanceTraveledNm : ℝ
  method : String

/-- `DeadReckoningBaseline.predict(last_position, last_speed, last_course,
time_gap_hours)` with the model's `uncertainty_factor`: the spherical
direct-geodesic step (Earth radius 3440.065 nm) plus the linear
uncertainty model `5.0 + uncertainty_factor * gap * speed`. -/
noncomputable def predictDeadReckoning (uncertaintyFactor lat lon
    lastSpeed lastCourse timeGapHours : ℝ) : DRResult :=
  let courseRad := radians lastCourse
  let distanceNm := lastSpeed * timeGapHours
  let latRad := radians lat
  let lonRad := radians lon
  let distanceRad := distanceNm / 3440.065
  let newLatRad := Real.arcsin (Real.sin latRad * Real.cos distanceRad +
    Real.cos latRad * Real.sin distanceRad * Real.cos courseRad)
  let newLonRad := lonRad + pyAtan2
    (Real.sin courseRad * Real.sin distanceRad * Real.cos latRad)
    (Real.cos distanceRad - Real.sin latRad * Real.sin newLatRad)
  let totalUncertaintyNm := 5 + uncertaintyFactor * timeGapHours * lastSpeed
  { predictedLat := degrees newLatRad
    predictedLon := degrees newLonRad
    uncertaintyNm := totalUncertaintyNm
    uncertaintyLatDeg := totalUncertaintyNm / 60
    uncertaintyLonDeg := totalUncertaintyNm / (60 * Real.cos latRad)
    distanceTraveledNm := distanceNm
    method := "dead_reckoning" }

/-- C7: `predict((0,0), 10 kn, 90°, 6 h)` with the default
`uncertainty_factor = 0.1` lands exactly on the equator
(`predicted lat = 0`), about one degree of longitude east of the origin
(within 0.01°, the exact value being `(60/3440.065)·(180/π) ≈ 0.9993°`),
with `uncertainty_nm = 5 + 0.1*6*10 = 11` and 60 nm travelled. -/
theorem C7_dead_reckoning_scenario :
    (predictDeadReckoning (1/10) 0 0 10 90 6).predictedLat = 0 ∧
    |(predictDeadReckoning (1/10) 0 0 10 90 6).predictedLon - 1| < 1/100 ∧
    (predictDeadReckoning (1/10) 0 0 10 90 6).uncertaintyNm = 11 ∧
    (predictDeadReckoning (1/10) 0 0 10 90 6).distanceTraveledNm = 60 := by
  have hπ : (0:ℝ) < Real.pi := Real.pi_pos
  have hπ3 : (3:ℝ) < Real.pi := Real.pi_gt_three
  have h90 : radians 90 = Real.pi / 2 := by rw [radians]; ring
  have h0 : radians 0 = 0 := by rw [radians]; ring
  have hδpos : (0:ℝ) < 10 * 6 / 3440.065 := by norm_num
  have hδlt : (10:ℝ) * 6 / 3440.065 < 1 := by norm_num
  have hδmem : (10:ℝ) * 6 / 3440.065 ∈ Set.Ioo (-(Real.pi/2)) (Real.pi/2) := by
    constructor
    · linarith
    · linarith
  have hcosδ : 0 < Real.cos (10 * 6 / 3440.065) :=
    Real.cos_pos_of_mem_Ioo hδmem
  have hlon : pyAtan2 (Real.sin (10 * 6 / 3440.065))
      (Real.cos (10 * 6 / 3440.065)) = 10 * 6 / 3440.065 := by
    rw [pyAtan2_of_pos _ _ hcosδ, ← Real.tan_eq_sin_div_cos,
      Real.arctan_tan hδmem.1 hδmem.2]
  simp only [predictDeadReckoning, h90, h0, Real.sin_zero, Real.cos_zero,
    Real.cos_pi_div_two, Real.sin_pi_div_two, zero_mul, mul_zero, one_mul,
    mul_one, add_zero, zero_add, sub_zero, zero_div, Real.arcsin_zero, hlon]
  refine ⟨by rw [degrees]; ring, ?_, by norm_num, by norm_num⟩
  have hval : degrees (10 * 6 / 3440.065) = 10 * 6 / 3440.065 * 180 / Real.pi := by
    rw [degrees]
  rw [hval, abs_sub_lt_iff]
  have ha1 : (10:ℝ) * 6 / 3440.065 * 180 < Real.pi := by
    have : (10:ℝ) * 6 / 3440.065 * 180 < 3.141592 := by norm_num
    linarith [Real.pi_gt_d6]
  have ha2 : 99/100 * Real.pi < (10:ℝ) * 6 / 3440.065 * 180 := by
    have : (99:ℝ)/100 * Real.pi < 99/100 * 3.141593 := by
      have := Real.pi_lt_d6
      nlinarith
    nlinarith
  constructor
  · have : (10:ℝ) * 6 / 3440.065 * 180 / Real.pi < 1 :=
      (div_lt_one hπ).mpr ha1
    linarith
  · have : (99:ℝ)/100 < 10 * 6 / 3440.065 * 180 / Real.pi :=
      (lt_div_iff₀ hπ).mpr ha2
    linarith

/-- C10: dead reckoning with `last_speed = 0` is a fixed point.  For any
latitude strictly between −90 and 90, any longitude, course, gap duration
and uncertainty factor, the predicted position equals the input position,
`distance_traveled_nm` is 0 and `uncertainty_nm` is the base 5.0. -/
theorem C10_zero_speed_fixed_point (uf lat lon course g : ℝ)
    (h1 : -90 < lat) (h2 : lat < 90) :
    (predictDeadReckoning uf lat lon 0 course g).predictedLat = lat ∧
    (predictDeadReckoning uf lat lon 0 course g).predictedLon = lon ∧
    (predictDeadReckoning uf lat lon 0 course g).distanceTraveledNm = 0 ∧
    (predictDeadReckoning uf lat lon 0 course g).uncertaintyNm = 5 := by
  have hπ : (0:ℝ) < Real.pi := Real.pi_pos
  have hπ0 : Real.pi ≠ 0 := ne_of_gt hπ
  have hscale : (0:ℝ) < Real.pi / 180 := by positivity
  have hlt : radians lat < Real.pi / 2 := by
    rw [radians]
    calc lat * Real.pi / 180 = lat * (Real.pi / 180) := by ring
    _ < 90 * (Real.pi / 180) := by
        exact mul_lt_mul_of_pos_right h2 hscale
    _ = Real.pi / 2 := by ring
  have hgt : -(Real.pi / 2) < radians lat := by
    rw [radians]
    calc -(Real.pi / 2) = -90 * (Real.pi / 180) := by ring
    _ < lat * (Real.pi / 180) := by
        exact mul_lt_mul_of_pos_right h1 hscale
    _ = lat * Real.pi / 180 := by ring
  have harcsin : Real.arcsin (Real.sin (radians lat)) = radians lat :=
    Real.arcsin_sin (le_of_lt hgt) (le_of_lt hlt)
  have hcos : 0 < Real.cos (radians lat) :=
    Real.cos_pos_of_mem_Ioo ⟨hgt, hlt⟩
  have hx : 0 < 1 - Real.sin (radians lat) * Real.sin (radians lat) := by
    have hid := Real.sin_sq_add_cos_sq (radians lat)
    nlinarith
  have hatan : pyAtan2 0 (1 - Real.sin (radians lat) * Real.sin (radians lat))
      = 0 := by
    rw [pyAtan2_of_pos _ _ hx, zero_div, Real.arctan_zero]
  have hdeg : ∀ x : ℝ, degrees (radians x) = x := by
    intro x
    rw [degrees, radians]
    field_simp
  simp only [predictDeadReckoning, zero_mul, mul_zero, zero_div,
    Real.sin_zero, Real.cos_zero, one_mul, mul_one, add_zero, zero_add,
    harcsin, hatan, hdeg]
  norm_num

/-- Witness for C10_zero_speed_fixed_point at latitude 10, longitude 20,
course 45, gap 6 hours, factor 0.1. -/
theorem C10_zero_speed_fixed_point_witness :
    (-90 : ℝ) < 10 ∧ (10 : ℝ) < 90 ∧
    (predictDeadReckoning (1/10) 10 20 0 45 6).predictedLat = 10 ∧
    (predictDeadReckoning (1/10) 10 20 0 45 6).predictedLon = 20 ∧
    (predictDeadReckoning (1/10) 10 20 0 45 6).distanceTraveledNm = 0 ∧
    (predictDeadReckoning (1/10) 10 20 0 45 6).uncertaintyNm = 5 := by
  have h := C10_zero_speed_fixed_point (1/10) 10 20 45 6
    (by norm_num) (by norm_num)
  exact ⟨by norm_num, by norm_num, h.1, h.2.1, h.2.2.1, h.2.2.2⟩

/- ## ProbabilityCloudGenerator (src/src_ml/prediction/generate_cloud.py)

`generate_from_prediction` over ℝ.  `np.linspace`, `np.meshgrid` and the
vectorized Gaussian are written out pointwise; the GeoJSON wrapper around
each grid point is reduced to its payload (lon, lat, probability). -/

/-- `np.linspace(lo, hi, n)[i]`: evenly spaced samples including both
endpoints; a single sample is `lo`. -/
noncomputable def linspaceAt (lo hi : ℝ) (n i : ℕ) : ℝ :=
  if n ≤ 1 then lo else lo + (hi - lo) * i / ((n : ℝ) - 1)

/-- Latitude grid value `lat_grid[i]` of `generate_from_prediction`:
`lat_range = unc_lat * num_std * 2`, grid from `lat - lat_range/2` to
`lat + lat_range/2`. -/
noncomputable def cloudLatAt (gridSize : ℕ) (numStd lat uncLat : ℝ)
    (i : ℕ) : ℝ :=
  linspaceAt (lat - uncLat * numStd * 2 / 2) (lat + uncLat * numStd * 2 / 2)
    gridSize i

/-- Longitude grid value `lon_grid[j]`. -/
noncomputable def cloudLonAt (gridSize : ℕ) (numStd lon uncLon : ℝ)
    (j : ℕ) : ℝ :=
  linspaceAt (lon - uncLon * numStd * 2 / 2) (lon + uncLon * numStd * 2 / 2)
    gridSize j

/-- The unnormalized Gaussian `np.exp(-0.5*(dlat**2 + dlon**2))` at grid
cell `(i, j)`. -/
noncomputable def cloudGauss (gridSize : ℕ) (numStd lat lon uncLat
    uncLon : ℝ) (i j : ℕ) : ℝ :=
  Real.exp (-(1/2) *
    (((cloudLatAt gridSize numStd lat uncLat i - lat) / uncLat) ^ 2 +
     ((cloudLonAt gridSize numStd lon uncLon j - lon) / uncLon) ^ 2))

/-- `probability.sum()`: the normalization constant. -/
noncomputable def cloudTotal (gridSize : ℕ) (numStd lat lon uncLat
    uncLon : ℝ) : ℝ :=
  ((List.range gridSize).map (fun i =>
    ((List.range gridSize).map (fun j =>
      cloudGauss gridSize numStd lat lon uncLat uncLon i j)).sum)).sum

/-- One emitted GeoJSON point feature, reduced to its payload. -/
structure CloudPoint where
  lon : ℝ
  lat : ℝ
  probability : ℝ

/-- `ProbabilityCloudGenerator.generate_from_prediction(position,
uncertainty)['features']` with the generator's `grid_size` and `num_std`:
the row-major `grid_size × grid_size` point list with normalized Gaussian
probabilities. -/
noncomputable def generate_from_prediction (gridSize : ℕ)
    (numStd lat lon uncLat uncLon : ℝ) : List CloudPoint :=
  (List.range gridSize).flatMap (fun i =>
    (List.range gridSize).map (fun j =>
      ⟨cloudLonAt gridSize numStd lon uncLon j,
       cloudLatAt gridSize numStd lat uncLat i,
       cloudGauss gridSize numStd lat lon uncLat uncLon i j /
         cloudTotal gridSize numStd lat lon uncLat uncLon⟩))

/-- Summing a constant over a list multiplies it by the length. -/
theorem sum_map_const_nat {α : Type} (l : List α) (c : ℕ) :
    (l.map (fun _ => c)).sum = l.length * c := by
  induction l with
  | nil => simp
  | cons a t ih => simp [ih, Nat.succ_mul]; omega

/-- Dividing every summand divides the list sum. -/
theorem list_sum_map_div {α : Type} (l : List α) (f : α → ℝ) (c : ℝ) :
    (l.map (fun x => f x / c)).sum = (l.map f).sum / c := by
  induction l with
  | nil => simp
  | cons a t ih => simp [ih, add_div]

/-- A nonempty list of positive reals has positive sum. -/
theorem list_sum_pos_of_pos (l : List ℝ) (hpos : ∀ x ∈ l, 0 < x)
    (hne : l ≠ []) : 0 < l.sum := by
  induction l with
  | nil => exact absurd rfl hne
  | cons a t ih =>
    rcases t with _ | ⟨b, t2⟩
    · simpa using hpos a (by simp)
    · have ha : 0 < a := hpos a (by simp)
      have ht : 0 < (b :: t2).sum := by
        apply ih
        · intro x hx
          exact hpos x (List.mem_cons_of_mem a hx)
        · simp
      simpa using add_pos ha ht

/-- The normalization constant is positive for a nonempty grid. -/
theorem cloudTotal_pos (gridSize : ℕ) (numStd lat lon uncLat uncLon : ℝ)
    (hgs : 1 ≤ gridSize) :
    0 < cloudTotal gridSize numStd lat lon uncLat uncLon := by
  apply list_sum_pos_of_pos
  · intro x hx
    simp only [List.mem_map] at hx
    obtain ⟨i, _, hi⟩ := hx
    subst hi
    apply list_sum_pos_of_pos
    · intro y hy
      simp only [List.mem_map] at hy
      obtain ⟨j, _, hj⟩ := hy
      subst hj
      exact Real.exp_pos _
    · simp [List.range_eq_nil]
      omega
  · simp [List.range_eq_nil]
    omega

/-- C6: for every center and strictly positive per-axis uncertainties (and
a nonempty grid), the cloud has exactly `grid_size * grid_size` points and
its probabilities sum to 1 exactly — in particular within 1e-6. -/
theorem C6_cloud_count_and_sum (gridSize : ℕ)
    (numStd lat lon uncLat uncLon : ℝ) (hgs : 1 ≤ gridSize)
    (_hul : 0 < uncLat) (_huo : 0 < uncLon) :
    (generate_from_prediction gridSize numStd lat lon uncLat uncLon).length
        = gridSize * gridSize ∧
    ((generate_from_prediction gridSize numStd lat lon uncLat
        uncLon).map CloudPoint.probability).sum = 1 ∧
    |((generate_from_prediction gridSize numStd lat lon uncLat
        uncLon).map CloudPoint.probability).sum - 1| ≤ 1/1000000 := by
  have hT := cloudTotal_pos gridSize numStd lat lon uncLat uncLon hgs
  have hsum : ((generate_from_prediction gridSize numStd lat lon uncLat
      uncLon).map CloudPoint.probability).sum = 1 := by
    rw [generate_from_prediction, List.map_flatMap]
    have hrow : ∀ i : ℕ,
        (List.map CloudPoint.probability ((List.range gridSize).map (fun j =>
          (⟨cloudLonAt gridSize numStd lon uncLon j,
            cloudLatAt gridSize numStd lat uncLat i,
            cloudGauss gridSize numStd lat lon uncLat uncLon i j /
              cloudTotal gridSize numStd lat lon uncLat uncLon⟩ :
            CloudPoint)))).sum =
        ((List.range gridSize).map (fun j =>
          cloudGauss gridSize numStd lat lon uncLat uncLon i j)).sum /
          cloudTotal gridSize numStd lat lon uncLat uncLon := by
      intro i
      rw [List.map_map]
      exact list_sum_map_div (List.range gridSize) _ _
    have hflat : ∀ (l : List ℕ) (f : ℕ → List ℝ),
        (l.flatMap f).sum = (l.map (fun i => (f i).sum)).sum := by
      intro l f
      induction l with
      | nil => simp
      | cons a t ih => simp [List.flatMap_cons, ih]
    rw [hflat]
    have : (List.map (fun i =>
        (List.map CloudPoint.probability ((List.range gridSize).map (fun j =>
          (⟨cloudLonAt gridSize numStd lon uncLon j,
            cloudLatAt gridSize numStd lat uncLat i,
            cloudGauss gridSize numStd lat lon uncLat uncLon i j /
              cloudTotal gridSize numStd lat lon uncLat uncLon⟩ :
            CloudPoint)))).sum) (List.range gridSize)) =
        (List.map (fun i =>
          ((List.range gridSize).map (fun j =>
            cloudGauss gridSize numStd lat lon uncLat uncLon i j)).sum /
            cloudTotal gridSize numStd lat lon uncLat uncLon)
          (List.range gridSize)) := by
      apply List.map_congr_left
      intro i _
      exact hrow i
    rw [this, list_sum_map_div, ← cloudTotal, div_self (ne_of_gt hT)]
  refine ⟨?_, hsum, by rw [hsum]; norm_num⟩
  rw [generate_from_prediction, List.length_flatMap]
  simp only [Function.comp_def, List.length_map, List.length_range]
  rw [sum_map_const_nat, List.length_range]

/-- Witness for C6_cloud_count_and_sum at the spec's scenario values:
grid 10, `num_std = 2`, center (0,0), uncertainties (0.1, 0.1). -/
theorem C6_cloud_count_and_sum_witness :
    (1 ≤ 10 ∧ (0:ℝ) < 0.1 ∧ (0:ℝ) < 0.1) ∧
    ((generate_from_prediction 10 2 0 0 0.1 0.1).length = 10 * 10 ∧
     ((generate_from_prediction 10 2 0 0 0.1 0.1).map
        CloudPoint.probability).sum = 1 ∧
     |((generate_from_prediction 10 2 0 0 0.1 0.1).map
        CloudPoint.probability).sum - 1| ≤ 1/1000000) :=
  ⟨⟨by norm_num, by norm_num, by norm_num⟩,
   C6_cloud_count_and_sum 10 2 0 0 0.1 0.1 (by norm_num) (by norm_num)
     (by norm_num)⟩

/- ## TrajectoryNormalizerV3.transform_X (src/ml/features/normalizer_v3.py)

One sequence of the batch, over ℝ (the course features go through
`np.sin`/`np.cos`).  `coord_scale = max(stats['lat_std'], 1.0)` and
`max_speed` are captured as parameters; the float32 cast is not
modelled. -/

/-- One raw sequence step `[lat, lon, speed, course]`. -/
structure RawStep where
  lat : ℝ
  lon : ℝ
  speed : ℝ
  course : ℝ

/-- `X[-1]`, the sequence's own final point (Python raises on an empty
array; the default is never reached for nonempty sequences). -/
def lastRawStep (xs : List RawStep) : RawStep :=
  xs.getLastD ⟨0, 0, 0, 0⟩

/-- `TrajectoryNormalizerV3.transform_X` for one sequence: 5 features per
step `[lat_rel, lon_rel, speed_norm, course_sin, course_cos]`, with
`lat_rel = (lat - last_lat)/coord_scale`,
`coord_scale = max(stats['lat_std'], 1.0)`,
`speed_norm = speed/max_speed`, and the course mapped through
`sin`/`cos` of its radians. -/
noncomputable def transform_X (latStd maxSpeed : ℝ) (xs : List RawStep) :
    List (ℝ × ℝ × ℝ × ℝ × ℝ) :=
  let lastLat := (lastRawStep xs).lat
  let lastLon := (lastRawStep xs).lon
  let coordScale := max latStd 1
  xs.map (fun p =>
    ((p.lat - lastLat) / coordScale,
     (p.lon - lastLon) / coordScale,
     p.speed / maxSpeed,
     Real.sin (radians p.course),
     Real.cos (radians p.course)))

/-- A uniform position offset applied to every step of a sequence, with
speed and course unchanged. -/
def shiftStep (dlat dlon : ℝ) (p : RawStep) : RawStep :=
  ⟨p.lat + dlat, p.lon + dlon, p.speed, p.course⟩

/-- The last element of a mapped list is the image of the last element,
relative to a mapped default. -/
theorem getLastD_map {α β : Type} (f : α → β) (xs : List α) (d : α) :
    (xs.map f).getLastD (f d) = f (xs.getLastD d) := by
  induction xs generalizing d with
  | nil => rfl
  | cons a t ih =>
    rw [List.map_cons, List.getLastD_cons, List.getLastD_cons]
    exact ih a

/-- C8: the input transform is location-independent.  Adding any constant
offset `(dlat, dlon)` to every step's position (speed and course
unchanged) leaves `transform_X` unchanged, because relative positions are
taken against the sequence's own final point. -/
theorem C8_transform_X_shift_invariant (latStd maxSpeed dlat dlon : ℝ)
    (xs : List RawStep) :
    transform_X latStd maxSpeed (xs.map (shiftStep dlat dlon)) =
      transform_X latStd maxSpeed xs := by
  cases xs with
  | nil => rfl
  | cons a t =>
    have hlast : lastRawStep ((a :: t).map (shiftStep dlat dlon)) =
        shiftStep dlat dlon (lastRawStep (a :: t)) := by
      rw [lastRawStep, lastRawStep, List.map_cons, List.getLastD_cons,
        List.getLastD_cons]
      exact getLastD_map (shiftStep dlat dlon) t a
    simp only [transform_X, hlast, List.map_map]
    apply List.map_congr_left
    intro p _
    simp only [Function.comp_apply, shiftStep]
    congr 2
    · ring
    · congr 1
      ring

/- ## Prediction server (src/ml/prediction_server.py)

`predict_path` in the configuration the claims address: `lstm_model is
None`, so `use_lstm` is false for every `model_type` and every request
takes the dead-reckoning fallback branch.  Pydantic defaults and Python's
`or`-defaulting of falsy speed/course values are modelled explicitly. -/

/-- `max(0.25, min(10.0, request.aggression_factor))` (line 189 of
`predict_path`): the aggression clamp applied before any use. -/
noncomputable def clampAggression (x : ℝ) : ℝ :=
  max 0.25 (min 10 x)

/-- Python `value or default` for an optional float field: `None` and
`0.0` (the only falsy float) both give the default. -/
noncomputable def pyOrFloat (v : Option ℝ) (d : ℝ) : ℝ :=
  match v with
  | none => d
  | some x => if x = 0 then d else x

/-- A `PredictionRequest` (the fields `predict_path` reads). -/
structure ServerRequest where
  vesselId : String
  lastLat : ℝ
  lastLon : ℝ
  lastSpeed : Option ℝ
  lastCourse : Option ℝ
  gapDurationHours : ℝ
  modelType : String
  aggressionFactor : ℝ

/-- The lat of server-cloud grid cell row `i` (grid fixed at 30):
`lat - 3*unc_lat + 6*unc_lat*i/(grid_size-1)`. -/
noncomputable def serverCloudLatAt (lat uncLat : ℝ) (i : ℕ) : ℝ :=
  lat - 3 * uncLat + 6 * uncLat * i / ((30:ℝ) - 1)

/-- The lon of server-cloud grid cell column `j`. -/
noncomputable def serverCloudLonAt (lon uncLon : ℝ) (j : ℕ) : ℝ :=
  lon - 3 * uncLon + 6 * uncLon * j / ((30:ℝ) - 1)

/-- The unnormalized Gaussian of `generate_probability_cloud` at cell
`(i, j)`, with the `if unc > 0 else 0` guards of lines 118–119. -/
noncomputable def serverGauss (lat lon uncLat uncLon : ℝ) (i j : ℕ) : ℝ :=
  let dLat := if 0 < uncLat then (serverCloudLatAt lat uncLat i - lat) / uncLat else 0
  let dLon := if 0 < uncLon then (serverCloudLonAt lon uncLon j - lon) / uncLon else 0
  Real.exp (-(1/2) * (dLat ^ 2 + dLon ^ 2))

/-- The normalization total of `generate_probability_cloud`. -/
noncomputable def serverCloudTotal (lat lon uncLat uncLon : ℝ) : ℝ :=
  ((List.range 30).map (fun i =>
    ((List.range 30).map (serverGauss lat lon uncLat uncLon i)).sum)).sum

/-- `generate_probability_cloud(lat, lon, unc_lat, unc_lon)['features']`,
reduced to point payloads. -/
noncomputable def generate_probability_cloud (lat lon uncLat uncLon : ℝ) :
    List CloudPoint :=
  (List.range 30).flatMap (fun i =>
    (List.range 30).map (fun j =>
      ⟨serverCloudLonAt lon uncLon j, serverCloudLatAt lat uncLat i,
       serverGauss lat lon uncLat uncLon i j /
         serverCloudTotal lat lon uncLat uncLon⟩))

/-- A `PredictionResponse`. -/
structure ServerResponse where
  vesselId : String
  predictedLat : ℝ
  predictedLon : ℝ
  uncertaintyNm : ℝ
  uncertaintyLatDeg : ℝ
  uncertaintyLonDeg : ℝ
  method : String
  modelConfidence : ℝ
  probabilityCloud : List CloudPoint

/-- `predict_path(request)` when `lstm_model is None`: `use_lstm` is false
whatever `model_type` says, so the dead-reckoning fallback runs with the
gap scaled by the clamped aggression, uncertainty additionally scaled by
`sqrt(aggression)`, `method = "dead_reckoning"` and
`confidence = max(0.2, 0.5 / aggression)`. -/
noncomputable def predict_path_no_model (req : ServerRequest) :
    ServerResponse :=
  let aggression := clampAggression req.aggressionFactor
  let effectiveGapHours := req.gapDurationHours * aggression
  let result := predictDeadReckoning (1/10) req.lastLat req.lastLon
    (pyOrFloat req.lastSpeed 5) (pyOrFloat req.lastCourse 0)
    effectiveGapHours
  let aggressionUncFactor := Real.sqrt aggression
  let uncLat := result.uncertaintyLatDeg * aggressionUncFactor
  let uncLon := result.uncertaintyLonDeg * aggressionUncFactor
  { vesselId := req.vesselId
    predictedLat := result.predictedLat
    predictedLon := result.predictedLon
    uncertaintyNm := (uncLat + uncLon) / 2 * 60
    uncertaintyLatDeg := uncLat
    uncertaintyLonDeg := uncLon
    method := "dead_reckoning"
    modelConfidence := max 0.2 (0.5 / aggression)
    probabilityCloud := generate_probability_cloud result.predictedLat
      result.predictedLon uncLat uncLon }

/-- C9: the aggression factor is clamped to [0.25, 10.0] before use —
0.1 becomes 0.25, 50 becomes 10, 1.0 is unchanged — and every real input
lands in the interval (no input is ever rejected; the server's
`predict_path` embedding `predict_path_no_model` is total in
`aggression_factor`). -/
theorem C9_aggression_clamp :
    (∀ x : ℝ, 0.25 ≤ clampAggression x ∧ clampAggression x ≤ 10) ∧
    clampAggression 0.1 = 0.25 ∧ clampAggression 50 = 10 ∧
    clampAggression 1 = 1 := by
  refine ⟨fun x => ⟨le_max_left _ _, ?_⟩, ?_, ?_, ?_⟩
  · exact max_le (by norm_num) (min_le_left _ _)
  · rw [clampAggression, min_eq_right (by norm_num), max_eq_left (by norm_num)]
  · rw [clampAggression, min_eq_left (by norm_num), max_eq_right (by norm_num)]
  · rw [clampAggression, min_eq_right (by norm_num), max_eq_right (by norm_num)]

/-- The request of the C5 counterexample: `model_type = "lstm"`, no model
loaded, aggression 0.25. -/
def c5Request : ServerRequest :=
  ⟨"vessel-1", 0, 0, some 10, some 90, 6, "lstm", 0.25⟩

/-- C5, claim as stated, fails on two counts at aggression 0.25: the
returned method string is `"dead_reckoning"` (underscore, not the claimed
`"dead-reckoning"`), and the confidence is `max(0.2, 0.5/0.25) = 2`,
which is not ≤ 0.5. -/
theorem C5_counterexample :
    (predict_path_no_model c5Request).method = "dead_reckoning" ∧
    (predict_path_no_model c5Request).modelConfidence = 2 ∧
    ¬ ((predict_path_no_model c5Request).method = "dead-reckoning" ∧
       (predict_path_no_model c5Request).modelConfidence ≤ 1/2) := by
  have hm : (predict_path_no_model c5Request).method = "dead_reckoning" := rfl
  have hclamp : clampAggression (0.25 : ℝ) = 0.25 := by
    rw [clampAggression, min_eq_right (by norm_num),
      max_eq_right (by norm_num)]
  have hc : (predict_path_no_model c5Request).modelConfidence = 2 := by
    show max 0.2 (0.5 / clampAggression (0.25 : ℝ)) = 2
    rw [hclamp]
    rw [max_eq_right (by norm_num)]
    norm_num
  refine ⟨hm, hc, ?_⟩
  rintro ⟨h1, -⟩
  rw [hm] at h1
  exact absurd h1 (by decide)

/-- C5 (amended): with no learned model loaded and `model_type = "lstm"`,
every request still succeeds via the fallback, returning method
`"dead_reckoning"` and `confidence = max(0.2, 0.5/aggression)`; the
confidence is ≤ 0.5 whenever the requested aggression is ≥ 1 (so in
particular at the default 1.0), but exceeds 0.5 for aggression below 1. -/
theorem C5_fallback_method_confidence (req : ServerRequest)
    (_hm : req.modelType = "lstm") :
    (predict_path_no_model req).method = "dead_reckoning" ∧
    (predict_path_no_model req).modelConfidence =
      max 0.2 (0.5 / clampAggression req.aggressionFactor) ∧
    (1 ≤ req.aggressionFactor →
      (predict_path_no_model req).modelConfidence ≤ 0.5) := by
  refine ⟨rfl, rfl, fun ha => ?_⟩
  have h1 : (1:ℝ) ≤ clampAggression req.aggressionFactor := by
    rw [clampAggression]
    exact le_trans (le_min (by norm_num) ha) (le_max_right _ _)
  show max 0.2 (0.5 / clampAggression req.aggressionFactor) ≤ 0.5
  apply max_le (by norm_num)
  exact div_le_self (by norm_num) h1

/-- Witness for C5_fallback_method_confidence at a concrete request with
the default aggression 1.0. -/
theorem C5_fallback_method_confidence_witness :
    (predict_path_no_model ⟨"v", 10, 20, some 8, some 45, 12, "lstm", 1⟩).method
      = "dead_reckoning" ∧
    (predict_path_no_model ⟨"v", 10, 20, some 8, some 45, 12, "lstm", 1⟩).modelConfidence
      = max 0.2 (0.5 / clampAggression 1) ∧
    (predict_path_no_model ⟨"v", 10, 20, some 8, some 45, 12, "lstm", 1⟩).modelConfidence
      ≤ 0.5 := by
  have h := C5_fallback_method_confidence
    ⟨"v", 10, 20, some 8, some 45, 12, "lstm", 1⟩ rfl
  exact ⟨h.1, h.2.1, h.2.2 (by norm_num)⟩

/- ## TrackPreprocessor (src/ml/data/preprocess_tracks.py)

`preprocess_gap_event` over ℝ.  Timestamps in this file are strings
compared lexicographically (`pos_time < gap_start_time`); the
`parse_timestamp` string-to-datetime parser is abstracted as a parameter
returning hours (absorbing `total_seconds()/3600`), and Python's
`round(x, n)` float rounding is abstracted as parameters `round2`/`round1`
— neither affects the sequence-length invariant, which holds for every
instantiation.  A missing `timestamp` key is the empty string
(`pos.get('timestamp', '')`). -/

/-- A raw position dict as read by `preprocess_gap_event`. -/
structure PPosition where
  lat : Option ℝ
  lon : Option ℝ
  ts : String

/-- One derived record of the output sequence. -/
structure SeqRecord where
  lat : ℝ
  lon : ℝ
  speed : ℝ
  course : ℝ
  ts : String

/-- The fields of a gap-event dict that `preprocess_gap_event` reads to
build the sequence: `gap_event['last_seen']` and
`gap_event.get('gap_start_time', '')`. -/
structure PGapEvent where
  vesselId : String
  lastSeen : PPosition
  gapStartTime : String

/-- Python `x % y` on floats (`math.fmod`-like but with floor semantics,
as the `%` operator): `x - y*floor(x/y)`. -/
noncomputable def pyFmod (x y : ℝ) : ℝ :=
  x - y * ⌊x / y⌋

/-- `haversine_distance(lat1, lon1, lat2, lon2)` of preprocess_tracks.py:
kilometres on a sphere of radius 6371 km, `atan2(sqrt a, sqrt(1-a))`
form. -/
noncomputable def haversine_distance (lat1 lon1 lat2 lon2 : ℝ) : ℝ :=
  let lat1Rad := radians lat1
  let lat2Rad := radians lat2
  let deltaLat := radians (lat2 - lat1)
  let deltaLon := radians (lon2 - lon1)
  let a := Real.sin (deltaLat / 2) ^ 2 +
    Real.cos lat1Rad * Real.cos lat2Rad * Real.sin (deltaLon / 2) ^ 2
  let c := 2 * pyAtan2 (Real.sqrt a) (Real.sqrt (1 - a))
  6371 * c

/-- `calculate_bearing(lat1, lon1, lat2, lon2)`: forward azimuth in
degrees, normalized into [0, 360) by `(bearing + 360) % 360`. -/
noncomputable def calculate_bearing (lat1 lon1 lat2 lon2 : ℝ) : ℝ :=
  let lat1Rad := radians lat1
  let lat2Rad := radians lat2
  let deltaLon := radians (lon2 - lon1)
  let x := Real.sin deltaLon * Real.cos lat2Rad
  let y := Real.cos lat1Rad * Real.sin lat2Rad -
    Real.sin lat1Rad * Real.cos lat2Rad * Real.cos deltaLon
  pyFmod (degrees (pyAtan2 x y) + 360) 360

/-- `pos.get('lat') or 0.0`: `None` and `0.0` both give `0.0`, any other
float passes through, so this is plain defaulting. -/
def pyOrZero (v : Option ℝ) : ℝ :=
  v.getD 0

/-- The body of the sequence-construction loop for one point, with `prev`
the preceding raw point when `i > 0`: derive speed (knots, from
`haversine/hours/1.852`) and course (only when `distance_km > 0.1`). -/
noncomputable def mkSeqRecord (parseTs : String → Option ℝ)
    (round2 round1 : ℝ → ℝ) (prev : Option PPosition) (p : PPosition) :
    SeqRecord :=
  let lat := pyOrZero p.lat
  let lon := pyOrZero p.lon
  match prev with
  | none => ⟨lat, lon, round2 0, round1 0, p.ts⟩
  | some q =>
    let prevLat := pyOrZero q.lat
    let prevLon := pyOrZero q.lon
    let distanceKm := haversine_distance prevLat prevLon lat lon
    let speed :=
      match parseTs q.ts, parseTs p.ts with
      | some t1, some t2 =>
        if t1 < t2 then
          let hours := t2 - t1
          if 0 < hours then distanceKm / hours / 1.852 else 0
        else 0
      | _, _ => 0
    let course :=
      if 0.1 < distanceKm then calculate_bearing prevLat prevLon lat lon
      else 0
    ⟨lat, lon, round2 speed, round1 course, p.ts⟩

/-- The `for i in range(len(raw_positions))` loop, threading the previous
point. -/
noncomputable def buildSequence (parseTs : String → Option ℝ)
    (round2 round1 : ℝ → ℝ) :
    Option PPosition → List PPosition → List SeqRecord
  | _, [] => []
  | prev, p :: rest =>
    mkSeqRecord parseTs round2 round1 prev p ::
      buildSequence parseTs round2 round1 (some p) rest

/-- Python `s[-n:]`: the last `n` items for `n ≥ 1`; for `n = 0`,
`s[-0:]` is `s[0:]`, the whole list. -/
def takeLastPy {α : Type} (n : ℕ) (s : List α) : List α :=
  if n = 0 then s else s.drop (s.length - n)

/-- `first_point = sequence[0].copy(); speed = 0.0; course = 0.0`. -/
def zeroKinCopy (r : SeqRecord) : SeqRecord :=
  { r with speed := 0, course := 0 }

/-- The padding loop `while len(sequence) < n: sequence.insert(0, ...)`,
run with explicit fuel (fuel `n` always suffices; Python would raise
`IndexError` on an empty sequence, which the caller never produces —
modelled as returning the empty list). -/
def padWhile (n : ℕ) : ℕ → List SeqRecord → List SeqRecord
  | 0, s => s
  | fuel + 1, s =>
    if s.length < n then
      match s with
      | [] => []
      | h :: t => padWhile n fuel (zeroKinCopy h :: h :: t)
    else s

/-- Selection of history points strictly before the gap
(`pos_time and pos_time < gap_start_time`, lexicographic string
comparison), keeping the last `sequence_length + 1`; `[]` when no usable
history was passed. -/
def selectRawPositions (N : ℕ) (ev : PGapEvent)
    (positions : Option (List PPosition)) : List PPosition :=
  match positions with
  | some ps =>
    if 1 < ps.length then
      takeLastPy (N + 1)
        (ps.filter (fun p => p.ts ≠ "" ∧ p.ts < ev.gapStartTime))
    else []
  | none => []

/-- The degenerate fallback: fewer than 2 selected points are replaced by
the single `last_seen` point. -/
def rawPositions (N : ℕ) (ev : PGapEvent)
    (positions : Option (List PPosition)) : List PPosition :=
  let raw0 := selectRawPositions N ev positions
  if raw0.length < 2 then
    [⟨ev.lastSeen.lat, ev.lastSeen.lon, ev.lastSeen.ts⟩]
  else raw0

/-- `if len(sequence) > self.sequence_length: sequence = sequence[-N:]`. -/
def truncateToLast (N : ℕ) (s : List SeqRecord) : List SeqRecord :=
  if N < s.length then takeLastPy N s else s

/-- `TrackPreprocessor.preprocess_gap_event(gap_event, positions)
['sequence']` with the preprocessor's `sequence_length = N`: select
history, derive kinematics, truncate to the most recent `N`, left-pad
with zero-kinematics copies of the earliest point. -/
noncomputable def preprocess_gap_event (N : ℕ)
    (parseTs : String → Option ℝ) (round2 round1 : ℝ → ℝ)
    (ev : PGapEvent) (positions : Option (List PPosition)) :
    List SeqRecord :=
  padWhile N N
    (truncateToLast N
      (buildSequence parseTs round2 round1 none
        (rawPositions N ev positions)))

theorem buildSequence_length (parseTs : String → Option ℝ)
    (round2 round1 : ℝ → ℝ) (prev : Option PPosition)
    (l : List PPosition) :
    (buildSequence parseTs round2 round1 prev l).length = l.length := by
  induction l generalizing prev with
  | nil => rfl
  | cons p rest ih => simp [buildSequence, ih]

theorem takeLastPy_length {α : Type} (n : ℕ) (s : List α) (hn : n ≠ 0) :
    (takeLastPy n s).length = min n s.length := by
  rw [takeLastPy, if_neg hn, List.length_drop]
  omega

theorem padWhile_length (n : ℕ) (fuel : ℕ) (s : List SeqRecord)
    (hne : s ≠ []) (hle : s.length ≤ n) (hfuel : n ≤ s.length + fuel) :
    (padWhile n fuel s).length = n := by
  induction fuel generalizing s with
  | zero =>
    have : s.length = n := by omega
    simpa [padWhile] using this
  | succ fuel ih =>
    by_cases hlt : s.length < n
    · cases s with
      | nil => exact absurd rfl hne
      | cons h t =>
        show (if (h :: t).length < n then
            padWhile n fuel (zeroKinCopy h :: h :: t)
          else h :: t).length = n
        rw [if_pos hlt]
        apply ih
        · simp
        · simp at hlt ⊢
          omega
        · simp at hfuel ⊢
          omega
    · cases s with
      | nil => exact absurd rfl hne
      | cons h t =>
        show (if (h :: t).length < n then
            padWhile n fuel (zeroKinCopy h :: h :: t)
          else h :: t).length = n
        rw [if_neg hlt]
        omega

/-- C4: for every gap event and every position history — empty, a single
point, fewer than `sequence_length`, exactly `sequence_length`, or more —
the sequence produced by `preprocess_gap_event` has length exactly
`sequence_length` (any positive `sequence_length`; default 20), for every
instantiation of the abstracted timestamp parser and rounding. -/
theorem C4_sequence_length_invariant (N : ℕ) (hN : 1 ≤ N)
    (parseTs : String → Option ℝ) (round2 round1 : ℝ → ℝ)
    (ev : PGapEvent) (positions : Option (List PPosition)) :
    (preprocess_gap_event N parseTs round2 round1 ev positions).length
      = N := by
  have hraw : 1 ≤ (rawPositions N ev positions).length := by
    rw [rawPositions]
    by_cases h : (selectRawPositions N ev positions).length < 2
    · rw [if_pos h]
      simp
    · rw [if_neg h]
      omega
  have hseq : (buildSequence parseTs round2 round1 none
      (rawPositions N ev positions)).length
      = (rawPositions N ev positions).length :=
    buildSequence_length _ _ _ _ _
  have hN0 : N ≠ 0 := by omega
  have htr1 : (truncateToLast N (buildSequence parseTs round2 round1 none
      (rawPositions N ev positions))).length ≤ N := by
    rw [truncateToLast]
    by_cases h : N < (buildSequence parseTs round2 round1 none
        (rawPositions N ev positions)).length
    · rw [if_pos h, takeLastPy_length _ _ hN0]
      omega
    · rw [if_neg h]
      omega
  have htr2 : 1 ≤ (truncateToLast N (buildSequence parseTs round2 round1
      none (rawPositions N ev positions))).length := by
    rw [truncateToLast]
    by_cases h : N < (buildSequence parseTs round2 round1 none
        (rawPositions N ev positions)).length
    · rw [if_pos h, takeLastPy_length _ _ hN0]
      omega
    · rw [if_neg h]
      omega
  have hne : truncateToLast N (buildSequence parseTs round2 round1 none
      (rawPositions N ev positions)) ≠ [] := by
    intro hcon
    rw [hcon] at htr2
    simp at htr2
  rw [preprocess_gap_event]
  exact padWhile_length N N _ hne htr1 (by omega)

/-- Witness for C4_sequence_length_invariant at the default
`sequence_length = 20`, a concrete gap event and an empty history. -/
theorem C4_sequence_length_invariant_witness :
    1 ≤ 20 ∧
    (preprocess_gap_event 20 (fun _ => none) id id
      ⟨"v", ⟨some 1, some 2, "2024-01-01T00:00:00"⟩, "2024-01-02T00:00:00"⟩
      none).length = 20 :=
  ⟨by norm_num,
   C4_sequence_length_invariant 20 (by norm_num) (fun _ => none) id id
     ⟨"v", ⟨some 1, some 2, "2024-01-01T00:00:00"⟩, "2024-01-02T00:00:00"⟩
     none⟩
